import Mathlib

/-!
Verification of the page-scoring and recommendation engine of the LLM
product-page auditor (src/app.py) against its natural-language
specification.  The HTML/HTTP layer (BeautifulSoup parsing, network
fetches) is abstracted: a `ParsedPage` records exactly the facts about a
fetched document that the analyzers in `app.py` read from the parsed
soup, and JSON-LD blocks are modelled by the `JValue` type.  All scoring,
classification, recommendation and aggregation logic is translated
directly from the source.
-/

/-- A generic JSON value, modelling the dictionaries produced by
`json.loads` in `extract_jsonld` (src/app.py:287).  Numbers are modelled
as integers; every concrete input used below is integer-valued. -/
inductive JValue where
  | null : JValue
  | bool : Bool → JValue
  | num : Int → JValue
  | str : String → JValue
  | arr : List JValue → JValue
  | obj : List (String × JValue) → JValue

/-- First-match association lookup, modelling Python dict access (keys of
a dict produced by `json.loads` are unique). -/
def lookupKey : List (String × JValue) → String → Option JValue
  | [], _ => none
  | (k, v) :: rest, key => if k = key then some v else lookupKey rest key

/-- `d.get(key)`: `some v` when `d` is a mapping containing `key`,
otherwise `none` (Python `None`). -/
def jGet (d : JValue) (key : String) : Option JValue :=
  match d with
  | .obj fields => lookupKey fields key
  | _ => none

/-- Whether a JSON value is the given string. -/
def isStr (v : JValue) (s : String) : Bool :=
  match v with
  | .str t => t = s
  | _ => false

/-- Python truthiness of a JSON value (`bool(x)`): `None`, `False`, `0`,
the empty string, the empty list and the empty dict are falsy. -/
def truthy : JValue → Bool
  | .null => false
  | .bool b => b
  | .num n => n != 0
  | .str s => !s.data.isEmpty
  | .arr xs => !xs.isEmpty
  | .obj fields => !fields.isEmpty

/-- Predicate selecting Product schemas in `analyze_schema_completeness`
(src/app.py:312): `d.get("@type") in ["Product", "ProductModel"]` or a
list `@type` containing `"Product"`. -/
def isProductRecord (d : JValue) : Bool :=
  match jGet d "@type" with
  | some t =>
      isStr t "Product" || isStr t "ProductModel" ||
        (match t with
         | .arr ts => ts.any (fun x => isStr x "Product")
         | _ => false)
  | none => false

/-- `product_schemas[0]` when any Product-typed record exists. -/
def firstProductSchema (jsonlds : List JValue) : Option JValue :=
  (jsonlds.filter isProductRecord).head?

/-- The essential checklist fields of `analyze_schema_completeness`
(2 points each) with their human-readable labels. -/
def essentialFields : List (String × String) :=
  [("name", "Nom du produit"), ("description", "Description détaillée"),
   ("image", "Images"), ("brand", "Marque"), ("offers", "Informations de prix")]

/-- The recommended checklist fields (1 point each). -/
def recommendedFields : List (String × String) :=
  [("sku", "SKU/Référence"), ("gtin", "Code-barres GTIN/EAN"),
   ("mpn", "Numéro fabricant"), ("aggregateRating", "Note moyenne"),
   ("review", "Avis clients")]

/-- One pass of the checklist loop of `analyze_schema_completeness`:
a field scores `pts` when it is present and truthy
(`if field in product and product[field]`), otherwise its label is
collected in checklist order.  Presence-and-truthiness is tested as
truthiness of the value defaulted to `null`, which is falsy. -/
def checkFields (product : JValue) (lab : String) (pts : Nat) :
    List (String × String) → Nat × List String
  | [] => (0, [])
  | (field, label) :: rest =>
    let acc := checkFields product lab pts rest
    if truthy ((jGet product field).getD .null) then (pts + acc.1, acc.2)
    else (acc.1, (lab ++ label) :: acc.2)

/-- The offer-bonus block of `analyze_schema_completeness`
(src/app.py:357-363): when `offers` is present and is a mapping, +2 if it
contains both `price` and `priceCurrency`, and — independently — +1 if it
contains `availability`. -/
def offerBonus (product : JValue) : Nat :=
  match jGet product "offers" with
  | some (.obj offer) =>
      (if (lookupKey offer "price").isSome && (lookupKey offer "priceCurrency").isSome
       then 2 else 0)
      + (if (lookupKey offer "availability").isSome then 1 else 0)
  | some _ => 0
  | none => 0

/-- `total_points = len(essential_fields) * 2 + len(recommended_fields)` = 15. -/
def totalSchemaPoints : Nat := essentialFields.length * 2 + recommendedFields.length

/-- Achieved checklist points of the first Product record: essentials,
recommended fields, and the offer bonus. -/
def schemaPoints (product : JValue) : Nat :=
  (checkFields product "Champ essentiel : " 2 essentialFields).1
  + (checkFields product "Champ recommandé : " 1 recommendedFields).1
  + offerBonus product

/-- Output record of `analyze_schema_completeness`.  The Python dict
carries a `schema` key only in the found case; that key is never read by
the scorer, and is modelled as an `Option`. -/
structure SchemaAnalysis where
  found : Bool
  completeness : Nat
  missing : List String
  schema : Option JValue

/-- `analyze_schema_completeness` (src/app.py:310-367).
`completeness = int((score / total_points) * 100)`: for every reachable
score (0..18) the double-precision computation agrees with exact floor
division, so it is modelled as `score * 100 / 15` over `Nat`. -/
def analyzeSchemaCompleteness (jsonlds : List JValue) : SchemaAnalysis :=
  match firstProductSchema jsonlds with
  | none => { found := false, completeness := 0, missing := [], schema := none }
  | some product =>
    let e := checkFields product "Champ essentiel : " 2 essentialFields
    let r := checkFields product "Champ recommandé : " 1 recommendedFields
    let score := e.1 + r.1 + offerBonus product
    { found := true, completeness := score * 100 / totalSchemaPoints,
      missing := e.2 ++ r.2, schema := some product }

/-- Output record of `analyze_faq_schema` (src/app.py:457-471).  The
Python dict carries the `well_structured` key only in the found case;
`none` models the absent key. -/
structure FaqAnalysis where
  found : Bool
  question_count : Nat
  well_structured : Option Bool

/-- Predicate selecting `d.get("@type") == "FAQPage"`. -/
def isFaqRecord (d : JValue) : Bool :=
  match jGet d "@type" with
  | some t => isStr t "FAQPage"
  | none => false

/-- `faq_schemas[0]` when any FAQPage record exists. -/
def firstFaqSchema (jsonlds : List JValue) : Option JValue :=
  (jsonlds.filter isFaqRecord).head?

/-- `analyze_faq_schema`: `questions = faq.get("mainEntity", [])`;
`question_count = len(questions) if isinstance(questions, list) else 1`;
`well_structured = len(questions) >= 5 if isinstance(questions, list)
else False`. -/
def analyzeFaqSchema (jsonlds : List JValue) : FaqAnalysis :=
  match firstFaqSchema jsonlds with
  | none => { found := false, question_count := 0, well_structured := none }
  | some faq =>
    match (jGet faq "mainEntity").getD (.arr []) with
    | .arr qs =>
        { found := true, question_count := qs.length,
          well_structured := some (decide (5 ≤ qs.length)) }
    | _ => { found := true, question_count := 1, well_structured := some false }

/-- `d.get("@type") == "BreadcrumbList"`. -/
def isBreadcrumbRecord (d : JValue) : Bool :=
  match jGet d "@type" with
  | some t => isStr t "BreadcrumbList"
  | none => false

/-- Whether `pat` occurs as a contiguous substring of the character list,
modelling Python `pat in text`. -/
def charsContain (pat : List Char) : List Char → Bool
  | [] => pat.isEmpty
  | c :: cs => List.isPrefixOf pat (c :: cs) || charsContain pat cs

/-- Python substring containment `pat in hay` over strings. -/
def strContainsSub (hay pat : String) : Bool :=
  charsContain pat.data hay.data

/-- Counts maximal runs of non-whitespace characters, i.e. Python
`len(text.split())`. -/
def countWordsAux : List Char → Bool → Nat
  | [], _ => 0
  | c :: cs, inWord =>
    if c.isWhitespace then countWordsAux cs false
    else (if inWord then 0 else 1) + countWordsAux cs true

/-- `len(text.split())` for a string. -/
def countWords (s : String) : Nat := countWordsAux s.data false

/-- The facts about one fetched document that the analyzers in
`score_page` read from the parsed soup.  `text` is the lower-cased,
whitespace-joined visible text (`soup.get_text(" ", strip=True).lower()`);
`jsonlds` is the output of `extract_jsonld`; the remaining fields record
the element counts and attribute presences queried via `soup.find` /
`soup.find_all`. -/
structure ParsedPage where
  jsonlds : List JValue
  text : String
  h1Count : Nat
  h2Count : Nat
  h3Count : Nat
  listTagCount : Nat
  tableCount : Nat
  paragraphCount : Nat
  authorRel : Bool
  timeTagCount : Nat
  nofollowLink : Bool
  metaDescription : Option String
  ogTagCount : Nat
  twitterTagCount : Nat
  title : Option String
  canonical : Bool

/-- Findings of `analyze_content_quality` (src/app.py:369-405). -/
structure ContentFindings where
  word_count : Nat
  sufficient_content : Bool
  has_h1 : Bool
  has_hierarchy : Bool
  heading_count : Nat
  has_lists : Bool
  has_tables : Bool
  list_count : Nat
  table_count : Nat
  has_paragraphs : Bool
  has_comparison : Bool
  has_usage_guide : Bool
  has_specs : Bool

def comparisonKeywords : List String :=
  ["vs", "versus", "comparaison", "compare", "difference", "meilleur", "top"]

def usageKeywords : List String :=
  ["utilisation", "usage", "comment utiliser", "mode d\x27emploi", "guide", "tutoriel"]

def specsKeywords : List String :=
  ["caractéristiques", "spécifications", "specs", "techniques", "dimensions", "poids", "matière"]

/-- `any(kw in text for kw in keywords)`. -/
def anyKeyword (text : String) (kws : List String) : Bool :=
  kws.any (fun kw => strContainsSub text kw)

/-- `analyze_content_quality(soup, text)`. -/
def analyzeContentQuality (p : ParsedPage) : ContentFindings :=
  let wc := countWords p.text
  { word_count := wc
    sufficient_content := decide (300 ≤ wc)
    has_h1 := decide (0 < p.h1Count)
    has_hierarchy := decide (0 < p.h2Count) || decide (0 < p.h3Count)
    heading_count := p.h1Count + p.h2Count + p.h3Count
    has_lists := decide (0 < p.listTagCount)
    has_tables := decide (0 < p.tableCount)
    list_count := p.listTagCount
    table_count := p.tableCount
    has_paragraphs := decide (3 ≤ p.paragraphCount)
    has_comparison := anyKeyword p.text comparisonKeywords
    has_usage_guide := anyKeyword p.text usageKeywords
    has_specs := anyKeyword p.text specsKeywords }

/-- Findings of `analyze_authority_signals` (src/app.py:407-430). -/
structure AuthorityFindings where
  has_author : Bool
  has_publish_date : Bool
  has_certifications : Bool
  has_contact_info : Bool
  has_external_links : Bool

def certKeywords : List String :=
  ["certifié", "certification", "norme", "garantie", "warranty", "iso", "ce"]

def contactKeywords : List String :=
  ["contact", "téléphone", "email", "adresse", "siret"]

/-- `analyze_authority_signals(soup, text)`.  `text` is already
lower-cased, so `text.lower()` is the identity. -/
def analyzeAuthoritySignals (p : ParsedPage) : AuthorityFindings :=
  { has_author := p.authorRel || strContainsSub p.text "par "
    has_publish_date := decide (0 < p.timeTagCount)
    has_certifications := anyKeyword p.text certKeywords
    has_contact_info := anyKeyword p.text contactKeywords
    has_external_links := p.nofollowLink }

/-- Findings of `analyze_metadata` (src/app.py:432-455). -/
structure MetadataFindings where
  has_meta_description : Bool
  has_open_graph : Bool
  has_twitter_cards : Bool
  has_title : Bool
  has_canonical : Bool

/-- `analyze_metadata(soup)`.  `metaDescription` carries the `content`
attribute of the description meta tag when the tag exists (an absent
attribute defaults to the empty string). -/
def analyzeMetadata (p : ParsedPage) : MetadataFindings :=
  { has_meta_description :=
      match p.metaDescription with
      | some c => decide (50 < c.length)
      | none => false
    has_open_graph := decide (3 ≤ p.ogTagCount)
    has_twitter_cards := decide (2 ≤ p.twitterTagCount)
    has_title :=
      match p.title with
      | some t => decide (30 ≤ t.length) && decide (t.length ≤ 70)
      | none => false
    has_canonical := p.canonical }

/-- One prioritized recommendation (src/app.py:562-673). -/
structure Recommendation where
  priority : String
  category : String
  text : String
  impact : String

def critiqueLabel : String := "🔴 CRITIQUE"

def importantLabel : String := "🟠 IMPORTANT"

def recommandeLabel : String := "🟡 RECOMMANDÉ"

def bonusLabel : String := "🟢 BONUS"

def structCategory : String := "Données Structurées"

def recNoSchema : Recommendation :=
  { priority := critiqueLabel, category := structCategory,
    text := "Ajouter schema.org Product complet avec name, description, image, brand, offers (prix + devise + disponibilité)",
    impact := "Très élevé - Les LLMs s\x27appuient massivement sur ces données" }

def recIncompleteSchema (sa : SchemaAnalysis) : Recommendation :=
  { priority := critiqueLabel, category := structCategory,
    text := "Compléter le schema Product (complétude: " ++ toString sa.completeness
      ++ "%). Manquants: " ++ String.intercalate ", " (sa.missing.take 3),
    impact := "Très élevé" }

def recContentLen (wordCount : Nat) : Recommendation :=
  { priority := critiqueLabel, category := "Contenu",
    text := "Enrichir le contenu (" ++ toString wordCount
      ++ " mots actuellement, minimum 300-500 mots recommandé)",
    impact := "Très élevé - Les LLMs ont besoin de contexte" }

def recFaq : Recommendation :=
  { priority := importantLabel, category := structCategory,
    text := "Ajouter une FAQ structurée (minimum 8-12 questions) avec schema FAQPage",
    impact := "Élevé - Les LLMs adorent les Q&R structurées" }

def recSpecsTable : Recommendation :=
  { priority := importantLabel, category := "Contenu",
    text := "Ajouter un tableau de spécifications techniques détaillé (dimensions, matériaux, normes, poids, etc.)",
    impact := "Élevé - Facilite les comparaisons par les LLMs" }

def recHierarchy : Recommendation :=
  { priority := importantLabel, category := "Contenu",
    text := "Structurer le contenu avec des titres H2/H3 (ex: Caractéristiques, Utilisation, Avantages)",
    impact := "Élevé - Aide les LLMs à comprendre la structure" }

def recMetaDesc : Recommendation :=
  { priority := importantLabel, category := "Métadonnées",
    text := "Ajouter une meta description concise (150-160 caractères) avec les infos clés du produit",
    impact := "Élevé" }

def recCert : Recommendation :=
  { priority := recommandeLabel, category := "Autorité",
    text := "Mentionner les certifications, normes, garanties (ISO, CE, garantie 2 ans, etc.)",
    impact := "Moyen - Renforce la crédibilité" }

def recComparison : Recommendation :=
  { priority := recommandeLabel, category := "Contenu",
    text := "Ajouter une section comparative (vs produits similaires, cas d\x27usage différents)",
    impact := "Moyen - Aide aux recommandations contextuelles" }

def recBreadcrumb : Recommendation :=
  { priority := recommandeLabel, category := structCategory,
    text := "Ajouter un fil d\x27Ariane avec schema BreadcrumbList",
    impact := "Moyen - Contexte de navigation" }

def recAuthorDate : Recommendation :=
  { priority := recommandeLabel, category := "Autorité",
    text := "Indiquer la date de publication/mise à jour et l\x27auteur/source",
    impact := "Moyen - Indicateur de fraîcheur" }

def recListsBonus : Recommendation :=
  { priority := bonusLabel, category := "Contenu",
    text := "Continuer à utiliser des listes à puces - excellent pour la lisibilité par LLMs",
    impact := "Faible - Déjà bien fait" }

def recUsageBonus : Recommendation :=
  { priority := bonusLabel, category := "Contenu",
    text := "Ajouter un guide d\x27utilisation ou mode d\x27emploi",
    impact := "Faible - Enrichissement contextuel" }

def recOgBonus : Recommendation :=
  { priority := bonusLabel, category := "Métadonnées",
    text := "Ajouter les balises Open Graph (og:title, og:description, og:image)",
    impact := "Faible - Meilleur partage social" }

/-- Rules 1-2 of the recommendation generator: `if not found` then rule 1,
`elif completeness < 70` then rule 2 (mutually exclusive by the elif). -/
def blockSchemaCrit (sa : SchemaAnalysis) : List Recommendation :=
  if !sa.found then [recNoSchema]
  else if sa.completeness < 70 then [recIncompleteSchema sa]
  else []

/-- Rule 3: insufficient content. -/
def blockContentCrit (cq : ContentFindings) : List Recommendation :=
  if !cq.sufficient_content then [recContentLen cq.word_count] else []

/-- Rule 4: FAQ absent or not well structured.  The Python condition
`not faq_analysis["found"] or not faq_analysis["well_structured"]`
short-circuits, reading `well_structured` only when `found` is true. -/
def blockFaq (faFound faWellStructured : Bool) : List Recommendation :=
  if !faFound || !faWellStructured then [recFaq] else []

/-- Rule 5: no table and no specs keywords. -/
def blockSpecsTable (cq : ContentFindings) : List Recommendation :=
  if !cq.has_tables && !cq.has_specs then [recSpecsTable] else []

/-- Rule 6: no heading hierarchy. -/
def blockHierarchy (cq : ContentFindings) : List Recommendation :=
  if !cq.has_hierarchy then [recHierarchy] else []

/-- Rule 7: no meta description. -/
def blockMetaDesc (md : MetadataFindings) : List Recommendation :=
  if !md.has_meta_description then [recMetaDesc] else []

/-- Rule 8: no certification keywords. -/
def blockCert (auth : AuthorityFindings) : List Recommendation :=
  if !auth.has_certifications then [recCert] else []

/-- Rule 9: no comparison content. -/
def blockComparison (cq : ContentFindings) : List Recommendation :=
  if !cq.has_comparison then [recComparison] else []

/-- Rule 10: no breadcrumb record. -/
def blockBreadcrumb (hasBreadcrumb : Bool) : List Recommendation :=
  if !hasBreadcrumb then [recBreadcrumb] else []

/-- Rule 11: missing author or publish date. -/
def blockAuthorDate (auth : AuthorityFindings) : List Recommendation :=
  if !auth.has_author || !auth.has_publish_date then [recAuthorDate] else []

/-- Rule 12: positive reinforcement when lists are present. -/
def blockListsBonus (cq : ContentFindings) : List Recommendation :=
  if cq.has_lists then [recListsBonus] else []

/-- Rule 13: no usage guide. -/
def blockUsageBonus (cq : ContentFindings) : List Recommendation :=
  if !cq.has_usage_guide then [recUsageBonus] else []

/-- Rule 14: no Open Graph tags. -/
def blockOgBonus (md : MetadataFindings) : List Recommendation :=
  if !md.has_open_graph then [recOgBonus] else []

/-- The recommendation generator of `score_page` (src/app.py:558-673):
the fourteen conditional rules emitted in source order, grouped here by
priority tier (the grouping is by list append and leaves the element
order unchanged). -/
def generateRecommendations (sa : SchemaAnalysis) (faFound faWellStructured : Bool)
    (cq : ContentFindings) (auth : AuthorityFindings) (md : MetadataFindings)
    (hasBreadcrumb : Bool) : List Recommendation :=
  (blockSchemaCrit sa ++ blockContentCrit cq)
  ++ (blockFaq faFound faWellStructured ++ blockSpecsTable cq
      ++ blockHierarchy cq ++ blockMetaDesc md)
  ++ (blockCert auth ++ blockComparison cq ++ blockBreadcrumb hasBreadcrumb
      ++ blockAuthorDate auth)
  ++ (blockListsBonus cq ++ blockUsageBonus cq ++ blockOgBonus md)

/-- The fixed fourteen-entry rule table of spec §4.8, in its stated
order, grouped by tier exactly as `generateRecommendations`. -/
def ruleTable (sa : SchemaAnalysis) (cq : ContentFindings) : List Recommendation :=
  ([recNoSchema, recIncompleteSchema sa] ++ [recContentLen cq.word_count])
  ++ ([recFaq] ++ [recSpecsTable] ++ [recHierarchy] ++ [recMetaDesc])
  ++ ([recCert] ++ [recComparison] ++ [recBreadcrumb] ++ [recAuthorDate])
  ++ ([recListsBonus] ++ [recUsageBonus] ++ [recOgBonus])

/-- Priority tier of a recommendation: critical, important, recommended,
bonus. -/
def tierOf (r : Recommendation) : Nat :=
  if r.priority = critiqueLabel then 0
  else if r.priority = importantLabel then 1
  else if r.priority = recommandeLabel then 2
  else 3

/-- A critical structured-data recommendation (the shape of rules 1 and
2, and of no other rule). -/
def isCritSchemaRec (r : Recommendation) : Bool :=
  r.priority = critiqueLabel && r.category = structCategory

/-- The sub-findings dict assembled for the structured-data category
(`structured_data_findings`); the first two keys exist only
conditionally. -/
structure StructuredDataFindings where
  product_schema_completeness : Option Nat
  faq_questions : Option Nat
  has_product_schema : Bool
  has_faq_schema : Bool
  has_breadcrumb : Bool

/-- The four findings groups returned under `"findings"`. -/
structure Findings where
  structured_data : StructuredDataFindings
  content_quality : ContentFindings
  authority : AuthorityFindings
  metadata : MetadataFindings

/-- The four-part score breakdown. -/
structure ScoreBreakdown where
  structured_data : Nat
  content_quality : Nat
  authority : Nat
  metadata : Nat

/-- The result dict of `score_page`. -/
structure ScoreResult where
  score : Nat
  score_breakdown : ScoreBreakdown
  findings : Findings
  recommendations : List Recommendation
  schema_analysis : SchemaAnalysis

/-- FAQ contribution to the structured-data sub-score
(src/app.py:494-495): reading `faq_analysis["well_structured"]` under the
`found` guard.  `none` models a `KeyError` on a missing key; it is proved
unreachable. -/
def faqPoints (fa : FaqAnalysis) : Option Nat :=
  if fa.found then
    match fa.well_structured with
    | some b => some (if b then 10 else 5)
    | none => none
  else some 0

/-- `if flag: score += n`. -/
def boolPts (b : Bool) (n : Nat) : Nat := if b then n else 0

/-- `score_page(html)` (src/app.py:473-691).  The result is `none`
exactly when a guarded dict read would raise (proved impossible).
`int(completeness * 0.25)` is floor division by 4: multiplication by
0.25 is exact in binary floating point. -/
def scorePage (p : ParsedPage) : Option ScoreResult :=
  let sa := analyzeSchemaCompleteness p.jsonlds
  let fa := analyzeFaqSchema p.jsonlds
  match faqPoints fa with
  | none => none
  | some faqPts =>
    let schemaPts := if sa.found then sa.completeness / 4 else 0
    let hasBc := p.jsonlds.any isBreadcrumbRecord
    let structuredScore := schemaPts + faqPts + boolPts hasBc 5
    let cq := analyzeContentQuality p
    let contentScore :=
      boolPts cq.sufficient_content 10 + boolPts (cq.has_h1 && cq.has_hierarchy) 5
      + boolPts cq.has_lists 3 + boolPts cq.has_tables 5 + boolPts cq.has_comparison 3
      + boolPts cq.has_usage_guide 2 + boolPts cq.has_specs 2
    let auth := analyzeAuthoritySignals p
    let authorityScore :=
      boolPts auth.has_author 3 + boolPts auth.has_publish_date 3
      + boolPts auth.has_certifications 5 + boolPts auth.has_contact_info 4
    let md := analyzeMetadata p
    let metadataScore :=
      boolPts md.has_meta_description 5 + boolPts md.has_open_graph 4
      + boolPts md.has_twitter_cards 2 + boolPts md.has_title 2 + boolPts md.has_canonical 2
    some
      { score := structuredScore + contentScore + authorityScore + metadataScore
        score_breakdown :=
          { structured_data := structuredScore, content_quality := contentScore,
            authority := authorityScore, metadata := metadataScore }
        findings :=
          { structured_data :=
              { product_schema_completeness := if sa.found then some sa.completeness else none
                faq_questions := if fa.found then some fa.question_count else none
                has_product_schema := sa.found
                has_faq_schema := fa.found
                has_breadcrumb := hasBc }
            content_quality := cq, authority := auth, metadata := md }
        recommendations :=
          generateRecommendations sa fa.found (fa.well_structured.getD false) cq auth md hasBc
        schema_analysis := sa }

/-- The values of the top-level `findings` dict: each value is one of the
four (always nonempty, hence truthy) findings group dicts. -/
inductive FindingsGroup where
  | sd : StructuredDataFindings → FindingsGroup
  | cq : ContentFindings → FindingsGroup
  | auth : AuthorityFindings → FindingsGroup
  | md : MetadataFindings → FindingsGroup

/-- The top-level `data["findings"]` dict with its four keys. -/
def findingsDict (f : Findings) : List (String × FindingsGroup) :=
  [("structured_data", .sd f.structured_data),
   ("content_quality", .cq f.content_quality),
   ("authority", .auth f.authority),
   ("metadata", .md f.metadata)]

/-- Python truthiness of a findings group dict: each group always has at
least three keys, hence is nonempty and truthy. -/
def groupTruthy (_ : FindingsGroup) : Bool := true

/-- The classification computed in `run_audit` (src/app.py:784):
`"product" if data["findings"].get("has_product_schema") else "other"`.
The `.get` is performed on the outer findings dict, whose keys are the
four group names; `None` is falsy. -/
def pageType (r : ScoreResult) : String :=
  match (findingsDict r.findings).lookup "has_product_schema" with
  | some g => if groupTruthy g then "product" else "other"
  | none => "other"

/-- An entry of a PageResult recommendation list: a structured
recommendation dict from `score_page`, or a bare explanatory string on
the error paths. -/
inductive RecEntry where
  | entry : Recommendation → RecEntry
  | note : String → RecEntry

/-- One row of `results` in `run_audit`. -/
structure PageResult where
  url : String
  status : Nat
  type : String
  score : Nat
  findings : Option Findings
  recommendations : List RecEntry

/-- The outcome of `client.get(url)` for one URL: a response with status,
content type and (parsed) body, or a raised exception with its message. -/
inductive FetchOutcome where
  | ok : Nat → String → ParsedPage → FetchOutcome
  | exn : String → FetchOutcome

/-- `str(e)[:50]`. -/
def takeChars (n : Nat) (s : String) : String := ⟨s.data.take n⟩

/-- `"text/html" in ct`. -/
def containsTextHtml (ct : String) : Bool := strContainsSub ct "text/html"

/-- The per-URL body of the loop in `run_audit` (src/app.py:773-812):
HTML responses run `score_page`; non-HTML responses and exceptions
produce an error row and the loop continues.  A `KeyError` escaping
`score_page` would be caught by the same except-clause; that branch is
unreachable (see the C10 theorem). -/
def auditUrl (url : String) (f : FetchOutcome) : PageResult :=
  match f with
  | .exn msg =>
      { url := url, status := 0, type := "error", score := 0, findings := none,
        recommendations := [.note ("❌ Erreur: " ++ takeChars 50 msg)] }
  | .ok status ct body =>
    if containsTextHtml ct then
      match scorePage body with
      | some d =>
          { url := url, status := status, type := pageType d, score := d.score,
            findings := some d.findings,
            recommendations := d.recommendations.map .entry }
      | none =>
          { url := url, status := 0, type := "error", score := 0, findings := none,
            recommendations := [.note "❌ Erreur: KeyError"] }
    else
      { url := url, status := status, type := "error", score := 0, findings := none,
        recommendations := [.note "⚠️ Page non HTML"] }

/-- The unsorted `results` list: one row per input URL. -/
def runAuditResults (pages : List (String × FetchOutcome)) : List PageResult :=
  pages.map (fun pr => auditUrl pr.1 pr.2)

/-- Sort rank: `0 if x["type"] == "product" else 1`. -/
def resultRank (r : PageResult) : Nat := if r.type = "product" then 0 else 1

/-- The sort key `(0 if product else 1, score)`. -/
def resultKey (r : PageResult) : Nat × Nat := (resultRank r, r.score)

/-- Lexicographic comparison of sort keys, as used by Python tuple
comparison in `results.sort(key=...)`. -/
def keyLe (a b : PageResult) : Prop :=
  resultRank a < resultRank b ∨ (resultRank a = resultRank b ∧ a.score ≤ b.score)

instance keyLeDecidable : DecidableRel keyLe := fun a b => by
  unfold keyLe; exact inferInstance

instance keyLeTotal : IsTotal PageResult keyLe :=
  ⟨fun a b => by unfold keyLe; omega⟩

instance keyLeTrans : IsTrans PageResult keyLe :=
  ⟨fun a b c hab hbc => by unfold keyLe at *; omega⟩

/-- The final sort of `run_audit` (src/app.py:815).  Python `list.sort`
is a stable sort by the key above; a stable sort by a total preorder has
a unique result, so insertion sort computes the same list. -/
def sortResults (rs : List PageResult) : List PageResult :=
  List.insertionSort keyLe rs

/-- `run_audit` over a list of URLs with their fetch outcomes: audit each
page, then sort. -/
def runAudit (pages : List (String × FetchOutcome)) : List PageResult :=
  sortResults (runAuditResults pages)

/-- The module-level mutable environment of the app (Streamlit session
state).  `score_page` neither reads nor writes it. -/
structure SessionState where
  results : List PageResult
  categories : List (String × Nat)
  root_url : String

/-- `score_page` with the ambient session state made explicit: the code
of `score_page` touches no global, so the embedding ignores and returns
the state unchanged. -/
def scorePageWithSession (s : SessionState) (p : ParsedPage) :
    Option ScoreResult × SessionState :=
  (scorePage p, s)

/-- The completeness value the source computes, expressed through the
named helper functions: floor of `100 * achievedPoints / 15` for the
first Product record, 0 when none exists. -/
def expectedCompleteness (jsonlds : List JValue) : Nat :=
  match firstProductSchema jsonlds with
  | some product => schemaPoints product * 100 / totalSchemaPoints
  | none => 0

/-- The question count the source computes for the FAQ analyzer: length
of the `mainEntity` list, 1 for a present singular (non-list) value, 0
when the field is absent or there is no FAQPage record. -/
def expectedQuestionCount (jsonlds : List JValue) : Nat :=
  match firstFaqSchema jsonlds with
  | none => 0
  | some faq =>
    match jGet faq "mainEntity" with
    | some (.arr qs) => qs.length
    | some _ => 1
    | none => 0

/-- `offers` is a mapping containing both `price` and `priceCurrency`. -/
def offersPricePair (product : JValue) : Bool :=
  match jGet product "offers" with
  | some (.obj offer) =>
      (lookupKey offer "price").isSome && (lookupKey offer "priceCurrency").isSome
  | _ => false

/-- `offers` is a mapping containing `availability`. -/
def offersAvailability (product : JValue) : Bool :=
  match jGet product "offers" with
  | some (.obj offer) => (lookupKey offer "availability").isSome
  | _ => false

/-- A Product JSON-LD record with every checklist field present and
truthy and a complete offer: 10 + 5 + 3 = 18 achieved points. -/
def fullProduct : JValue := .obj [
  ("@type", .str "Product"), ("name", .str "N"), ("description", .str "D"),
  ("image", .str "i.jpg"), ("brand", .str "B"),
  ("offers", .obj [("price", .str "10"), ("priceCurrency", .str "EUR"),
                   ("availability", .str "InStock")]),
  ("sku", .str "S"), ("gtin", .str "G"), ("mpn", .str "M"),
  ("aggregateRating", .str "4"), ("review", .str "R")]

/-- A FAQPage record with five questions. -/
def faqFive : JValue := .obj [("@type", .str "FAQPage"),
  ("mainEntity", .arr [.str "a", .str "b", .str "c", .str "d", .str "e"])]

/-- A BreadcrumbList record. -/
def breadcrumbRec : JValue := .obj [("@type", .str "BreadcrumbList")]

/-- `n` further single-letter words. -/
def padWords : Nat → String
  | 0 => ""
  | n + 1 => " a" ++ padWords n

/-- A 300-word lower-cased page text containing comparison, usage,
specs, certification and contact keywords. -/
def maxText : String := "vs utilisation specs garantie contact" ++ padWords 295

/-- A parsed page with no structured data, no text and no markup
signals. -/
def emptyPage : ParsedPage :=
  { jsonlds := [], text := "", h1Count := 0, h2Count := 0, h3Count := 0,
    listTagCount := 0, tableCount := 0, paragraphCount := 0, authorRel := false,
    timeTagCount := 0, nofollowLink := false, metaDescription := none,
    ogTagCount := 0, twitterTagCount := 0, title := none, canonical := false }

/-- A parsed page maximizing every scoring signal: complete Product
schema with full offer, well-structured FAQ, breadcrumb, 300 words with
all keyword groups, full heading/list/table structure, authority markers
and complete metadata. -/
def cexMaxPage : ParsedPage :=
  { jsonlds := [fullProduct, faqFive, breadcrumbRec], text := maxText,
    h1Count := 1, h2Count := 1, h3Count := 0, listTagCount := 1, tableCount := 1,
    paragraphCount := 3, authorRel := true, timeTagCount := 1, nofollowLink := false,
    metaDescription := some ⟨List.replicate 51 'a'⟩, ogTagCount := 3,
    twitterTagCount := 2, title := some ⟨List.replicate 30 'a'⟩, canonical := true }

/-- A parsed page whose only structured record is a minimal Product. -/
def productOnlyPage : ParsedPage :=
  { emptyPage with jsonlds := [.obj [("@type", .str "Product")]] }

/-- A FAQPage record whose `mainEntity` is present but singular (a
mapping, not a list). -/
def faqSingular : JValue := .obj [("@type", .str "FAQPage"),
  ("mainEntity", .obj [("@type", .str "Question")])]

/-- A Product record whose offer mapping contains `availability` but
neither `price` nor `priceCurrency`. -/
def availOnlyProduct : JValue :=
  .obj [("@type", .str "Product"), ("offers", .obj [("availability", .str "s")])]

/-- A trivial ScoreResult inhabitant used only as a `getD` default. -/
def defaultScoreResult : ScoreResult :=
  { score := 0,
    score_breakdown := { structured_data := 0, content_quality := 0,
                         authority := 0, metadata := 0 },
    findings :=
      { structured_data :=
          { product_schema_completeness := none, faq_questions := none,
            has_product_schema := false, has_faq_schema := false,
            has_breadcrumb := false },
        content_quality := analyzeContentQuality emptyPage,
        authority := analyzeAuthoritySignals emptyPage,
        metadata := analyzeMetadata emptyPage },
    recommendations := [], schema_analysis :=
      { found := false, completeness := 0, missing := [], schema := none } }

/-- The score result of `emptyPage`, extracted for the C1 witness. -/
def scoreOfEmpty : ScoreResult := (scorePage emptyPage).getD defaultScoreResult

theorem checkFields_fst_le (product : JValue) (lab : String) (pts : Nat) :
    ∀ fields : List (String × String),
      (checkFields product lab pts fields).1 ≤ fields.length * pts
  | [] => by simp [checkFields]
  | (field, label) :: rest => by
    have ih := checkFields_fst_le product lab pts rest
    unfold checkFields
    split <;> simp only [List.length_cons, Nat.succ_mul] <;> omega

theorem offerBonus_le (product : JValue) : offerBonus product ≤ 3 := by
  unfold offerBonus
  split <;> first | omega | (split <;> split <;> omega)

theorem schemaPoints_le (product : JValue) : schemaPoints product ≤ 18 := by
  have h1 := checkFields_fst_le product "Champ essentiel : " 2 essentialFields
  have h2 := checkFields_fst_le product "Champ recommandé : " 1 recommendedFields
  have h3 := offerBonus_le product
  rw [show essentialFields.length = 5 from rfl] at h1
  rw [show recommendedFields.length = 5 from rfl] at h2
  unfold schemaPoints
  omega

theorem completeness_eq_expected (jsonlds : List JValue) :
    (analyzeSchemaCompleteness jsonlds).completeness = expectedCompleteness jsonlds := by
  unfold analyzeSchemaCompleteness expectedCompleteness
  cases firstProductSchema jsonlds <;> simp [schemaPoints]

theorem completeness_le_120 (jsonlds : List JValue) :
    (analyzeSchemaCompleteness jsonlds).completeness ≤ 120 := by
  rw [completeness_eq_expected]
  unfold expectedCompleteness
  cases h : firstProductSchema jsonlds with
  | none => simp
  | some product =>
    show schemaPoints product * 100 / totalSchemaPoints ≤ 120
    have h18 := schemaPoints_le product
    have h100 : schemaPoints product * 100 ≤ 1800 := by omega
    calc schemaPoints product * 100 / totalSchemaPoints
        ≤ 1800 / totalSchemaPoints := Nat.div_le_div_right h100
      _ = 120 := rfl

theorem faqPoints_le {fa : FaqAnalysis} {n : Nat} (h : faqPoints fa = some n) : n ≤ 10 := by
  unfold faqPoints at h
  split at h
  · split at h
    · cases h; split <;> omega
    · cases h
  · cases h; omega

theorem boolPts_le (b : Bool) (n : Nat) : boolPts b n ≤ n := by
  unfold boolPts; split <;> omega

theorem faq_well_structured_isSome_eq_found (jsonlds : List JValue) :
    ((analyzeFaqSchema jsonlds).well_structured).isSome = (analyzeFaqSchema jsonlds).found := by
  unfold analyzeFaqSchema
  split
  · rfl
  · split <;> rfl

theorem faqPoints_analyze_isSome (jsonlds : List JValue) :
    (faqPoints (analyzeFaqSchema jsonlds)).isSome = true := by
  unfold faqPoints
  split
  · have h := faq_well_structured_isSome_eq_found jsonlds
    split
    · rfl
    · simp_all
  · rfl

theorem scorePage_isSome (p : ParsedPage) : (scorePage p).isSome = true := by
  cases hf : faqPoints (analyzeFaqSchema p.jsonlds) with
  | none =>
    have h := faqPoints_analyze_isSome p.jsonlds
    rw [hf] at h
    simp at h
  | some v =>
    simp only [scorePage, hf]
    rfl

/-- C3 counterexample: on a Product record with every checklist field and a
complete offer, the analyzer reports a completeness percentage of 120,
outside the 0-100 range the claim states. -/
theorem completeness_exceeds_100 :
    (analyzeSchemaCompleteness [fullProduct]).completeness = 120 := rfl

/-- C3 (amended): `completenessPercent` equals
`floor(100 * achievedPoints / 15)` for the first Product record (0 when
none exists) against the single fixed denominator 15, and because the
offer bonus can raise the achieved points to 18, its range is 0-120
rather than 0-100; truncation is used rather than rounding. -/
theorem completeness_floor_formula_and_bound (jsonlds : List JValue) :
    (analyzeSchemaCompleteness jsonlds).completeness = expectedCompleteness jsonlds
  ∧ (analyzeSchemaCompleteness jsonlds).completeness ≤ 120 :=
  ⟨completeness_eq_expected jsonlds, completeness_le_120 jsonlds⟩

/-- C6 counterexample: a FAQPage record whose `mainEntity` field is
present but singular (not a list) yields `questionCount = 1`, where the
claim requires 0. -/
theorem faq_singular_counts_one :
    (jGet faqSingular "mainEntity").isSome = true
  ∧ (analyzeFaqSchema [faqSingular]).question_count = 1
  ∧ (analyzeFaqSchema [faqSingular]).well_structured = some false :=
  ⟨rfl, rfl, rfl⟩

/-- C6 (amended): `questionCount` is the length of the first FAQPage
record's question-list field, 1 (not 0) when that field is present but
singular, and 0 when it is absent; `wellStructured` is true exactly when
`questionCount >= 5`. -/
theorem faq_question_count_spec (jsonlds : List JValue) :
    (analyzeFaqSchema jsonlds).question_count = expectedQuestionCount jsonlds
  ∧ ((analyzeFaqSchema jsonlds).well_structured == some true)
      = ((analyzeFaqSchema jsonlds).found
          && decide (5 ≤ (analyzeFaqSchema jsonlds).question_count)) := by
  unfold analyzeFaqSchema expectedQuestionCount
  cases hf : firstFaqSchema jsonlds with
  | none => exact ⟨rfl, rfl⟩
  | some faq =>
    dsimp only
    cases hm : jGet faq "mainEntity" with
    | none => exact ⟨rfl, rfl⟩
    | some v =>
      cases v with
      | arr qs =>
        refine ⟨rfl, ?_⟩
        show (some (decide (5 ≤ qs.length)) == some true) = (true && decide (5 ≤ qs.length))
        cases h5 : decide (5 ≤ qs.length) <;> rfl
      | null => exact ⟨rfl, rfl⟩
      | bool b => exact ⟨rfl, rfl⟩
      | num n => exact ⟨rfl, rfl⟩
      | str s => exact ⟨rfl, rfl⟩
      | obj fields => exact ⟨rfl, rfl⟩

/-- C7 counterexample: an offer mapping containing `availability` but no
`price`/`priceCurrency` pair still earns 1 bonus point, where the claim
requires 0. -/
theorem offer_bonus_availability_alone :
    offersPricePair availOnlyProduct = false
  ∧ offersAvailability availOnlyProduct = true
  ∧ offerBonus availOnlyProduct = 1 :=
  ⟨rfl, rfl, rfl⟩

/-- C7 (amended): the offer bonus awards +2 exactly when `offers` is a
mapping containing both `price` and `priceCurrency`, and +1 — awarded
independently, not on top of the pair — exactly when the mapping contains
`availability`. -/
theorem offer_bonus_exact_conditions (product : JValue) :
    offerBonus product
      = (if offersPricePair product then 2 else 0)
        + (if offersAvailability product then 1 else 0) := by
  unfold offerBonus offersPricePair offersAvailability
  cases h : jGet product "offers" with
  | none => rfl
  | some v => cases v <;> rfl

/-- C10: the FAQ analyzer emits the `well_structured` key exactly when
`found` is true, and since the scoring engine reads that key only under
the `found` guard, `score_page` never hits a missing key: its error
branch is unreachable and it returns a result on every input. -/
theorem faq_well_structured_guarded_safe (jsonlds : List JValue) (p : ParsedPage) :
    ((analyzeFaqSchema jsonlds).well_structured).isSome = (analyzeFaqSchema jsonlds).found
  ∧ (scorePage p).isSome = true :=
  ⟨faq_well_structured_isSome_eq_found jsonlds, scorePage_isSome p⟩

/-- C9: `score_page` is a pure function of the parsed document: with the
ambient session state made explicit, two runs from arbitrary (possibly
different) states on the same input return the same result, and the
state is returned unchanged. -/
theorem score_page_deterministic_stateless (s₁ s₂ : SessionState) (p : ParsedPage) :
    (scorePageWithSession s₁ p).1 = (scorePageWithSession s₂ p).1
  ∧ (scorePageWithSession s₁ p).2 = s₁ :=
  ⟨rfl, rfl⟩

/-- C2 (code bug): a successfully fetched HTML page whose only JSON-LD
record is Product-typed is classified `"other"`, although the schema
analysis reports `found = true`: `run_audit` looks up
`"has_product_schema"` on the outer findings dict (whose keys are the
four group names), so the lookup always misses and the classification is
never `"product"`. -/
theorem classification_never_product_bug :
    (analyzeSchemaCompleteness productOnlyPage.jsonlds).found = true
  ∧ (auditUrl "https://x/p" (.ok 200 "text/html" productOnlyPage)).type = "other"
  ∧ ((findingsDict
        { structured_data :=
            { product_schema_completeness := some 0, faq_questions := none,
              has_product_schema := true, has_faq_schema := false,
              has_breadcrumb := false },
          content_quality := analyzeContentQuality productOnlyPage,
          authority := analyzeAuthoritySignals productOnlyPage,
          metadata := analyzeMetadata productOnlyPage }).lookup
      "has_product_schema") = none :=
  ⟨rfl, rfl, rfl⟩

set_option maxRecDepth 100000 in
/-- C1 counterexample: on a page maximizing every signal, the
structured-data sub-score is 45 (above its documented cap of 40) and the
total score is 105 (above 100); the claim fails as stated. -/
theorem score_page_exceeds_documented_caps :
    (scorePage cexMaxPage).map
        (fun r => (r.score, r.score_breakdown.structured_data,
                   r.score_breakdown.content_quality, r.score_breakdown.authority,
                   r.score_breakdown.metadata))
      = some (105, 45, 30, 15, 15) := rfl

/-- C1 (amended): for every result of `score_page`, the total score is
the sum of the four sub-scores and the content-quality, authority and
metadata sub-scores respect their documented caps (30, 15, 15); however
the structured-data sub-score is only bounded by 45 (not 40), and the
total by 105 (not 100), because the completeness percentage can reach
120. -/
theorem score_page_total_sum_and_true_caps (p : ParsedPage) (r : ScoreResult)
    (h : scorePage p = some r) :
    r.score = r.score_breakdown.structured_data + r.score_breakdown.content_quality
              + r.score_breakdown.authority + r.score_breakdown.metadata
  ∧ r.score_breakdown.structured_data ≤ 45
  ∧ r.score_breakdown.content_quality ≤ 30
  ∧ r.score_breakdown.authority ≤ 15
  ∧ r.score_breakdown.metadata ≤ 15
  ∧ r.score ≤ 105 := by
  cases hf : faqPoints (analyzeFaqSchema p.jsonlds) with
  | none =>
    have hs := faqPoints_analyze_isSome p.jsonlds
    rw [hf] at hs
    simp at hs
  | some faqPts =>
    simp only [scorePage, hf] at h
    have hfaq : faqPts ≤ 10 := faqPoints_le hf
    have hcomp := completeness_le_120 p.jsonlds
    cases h
    have hsch : (if (analyzeSchemaCompleteness p.jsonlds).found = true
        then (analyzeSchemaCompleteness p.jsonlds).completeness / 4 else 0) ≤ 30 := by
      split
      · omega
      · omega
    have hbc := boolPts_le (p.jsonlds.any isBreadcrumbRecord) 5
    have c1 := boolPts_le (analyzeContentQuality p).sufficient_content 10
    have c2 := boolPts_le ((analyzeContentQuality p).has_h1
      && (analyzeContentQuality p).has_hierarchy) 5
    have c3 := boolPts_le (analyzeContentQuality p).has_lists 3
    have c4 := boolPts_le (analyzeContentQuality p).has_tables 5
    have c5 := boolPts_le (analyzeContentQuality p).has_comparison 3
    have c6 := boolPts_le (analyzeContentQuality p).has_usage_guide 2
    have c7 := boolPts_le (analyzeContentQuality p).has_specs 2
    have a1 := boolPts_le (analyzeAuthoritySignals p).has_author 3
    have a2 := boolPts_le (analyzeAuthoritySignals p).has_publish_date 3
    have a3 := boolPts_le (analyzeAuthoritySignals p).has_certifications 5
    have a4 := boolPts_le (analyzeAuthoritySignals p).has_contact_info 4
    have m1 := boolPts_le (analyzeMetadata p).has_meta_description 5
    have m2 := boolPts_le (analyzeMetadata p).has_open_graph 4
    have m3 := boolPts_le (analyzeMetadata p).has_twitter_cards 2
    have m4 := boolPts_le (analyzeMetadata p).has_title 2
    have m5 := boolPts_le (analyzeMetadata p).has_canonical 2
    refine ⟨rfl, ?_, ?_, ?_, ?_, ?_⟩ <;> simp only <;> omega

set_option maxRecDepth 100000 in
/-- Witness for the amended C1 theorem, at the concrete page with no
signals. -/
theorem score_page_total_sum_and_true_caps_witness :
    scorePage emptyPage = some scoreOfEmpty
  ∧ (scoreOfEmpty.score
        = scoreOfEmpty.score_breakdown.structured_data
          + scoreOfEmpty.score_breakdown.content_quality
          + scoreOfEmpty.score_breakdown.authority
          + scoreOfEmpty.score_breakdown.metadata
    ∧ scoreOfEmpty.score_breakdown.structured_data ≤ 45
    ∧ scoreOfEmpty.score_breakdown.content_quality ≤ 30
    ∧ scoreOfEmpty.score_breakdown.authority ≤ 15
    ∧ scoreOfEmpty.score_breakdown.metadata ≤ 15
    ∧ scoreOfEmpty.score ≤ 105) :=
  ⟨rfl, score_page_total_sum_and_true_caps emptyPage scoreOfEmpty rfl⟩

theorem tierOf_if_block {c : Bool} {r x : Recommendation} {t : Nat}
    (hx : x ∈ (if c then [r] else [])) (hr : tierOf r = t) : tierOf x = t := by
  split at hx
  · simp only [List.mem_singleton] at hx
    subst hx
    exact hr
  · simp at hx

theorem tierOf_blockSchemaCrit (sa : SchemaAnalysis) :
    ∀ x ∈ blockSchemaCrit sa, tierOf x = 0 := by
  intro x hx
  unfold blockSchemaCrit at hx
  split at hx
  · simp only [List.mem_singleton] at hx
    subst hx
    rfl
  · split at hx
    · simp only [List.mem_singleton] at hx
      subst hx
      rfl
    · simp at hx

theorem pairwise_map_const {l : List Recommendation} {v : Nat}
    (h : ∀ x ∈ l, tierOf x = v) : (l.map tierOf).Pairwise (· ≤ ·) := by
  induction l with
  | nil => simp
  | cons a as ih =>
    simp only [List.map_cons, List.pairwise_cons]
    refine ⟨?_, ih (fun x hx => h x (List.mem_cons_of_mem a hx))⟩
    intro b hb
    simp only [List.mem_map] at hb
    obtain ⟨r, hr, rfl⟩ := hb
    rw [h a (List.mem_cons_self a as), h r (List.mem_cons_of_mem a hr)]

theorem pairwise_map_append (l₁ l₂ : List Recommendation) (t : Nat)
    (h₁ : (l₁.map tierOf).Pairwise (· ≤ ·)) (h₂ : (l₂.map tierOf).Pairwise (· ≤ ·))
    (b₁ : ∀ x ∈ l₁, tierOf x ≤ t) (b₂ : ∀ x ∈ l₂, t ≤ tierOf x) :
    ((l₁ ++ l₂).map tierOf).Pairwise (· ≤ ·) := by
  rw [List.map_append, List.pairwise_append]
  refine ⟨h₁, h₂, ?_⟩
  intro a ha b hb
  simp only [List.mem_map] at ha hb
  obtain ⟨r, hr, rfl⟩ := ha
  obtain ⟨q, hq, rfl⟩ := hb
  exact (b₁ r hr).trans (b₂ q hq)

theorem filter_crit_blockContentCrit (cq : ContentFindings) :
    (blockContentCrit cq).filter isCritSchemaRec = [] := by
  unfold blockContentCrit
  split <;> rfl

theorem filter_crit_blockFaq (fF fWS : Bool) :
    (blockFaq fF fWS).filter isCritSchemaRec = [] := by
  unfold blockFaq
  split <;> rfl

theorem filter_crit_blockSpecsTable (cq : ContentFindings) :
    (blockSpecsTable cq).filter isCritSchemaRec = [] := by
  unfold blockSpecsTable
  split <;> rfl

theorem filter_crit_blockHierarchy (cq : ContentFindings) :
    (blockHierarchy cq).filter isCritSchemaRec = [] := by
  unfold blockHierarchy
  split <;> rfl

theorem filter_crit_blockMetaDesc (md : MetadataFindings) :
    (blockMetaDesc md).filter isCritSchemaRec = [] := by
  unfold blockMetaDesc
  split <;> rfl

theorem filter_crit_blockCert (auth : AuthorityFindings) :
    (blockCert auth).filter isCritSchemaRec = [] := by
  unfold blockCert
  split <;> rfl

theorem filter_crit_blockComparison (cq : ContentFindings) :
    (blockComparison cq).filter isCritSchemaRec = [] := by
  unfold blockComparison
  split <;> rfl

theorem filter_crit_blockBreadcrumb (bc : Bool) :
    (blockBreadcrumb bc).filter isCritSchemaRec = [] := by
  unfold blockBreadcrumb
  split <;> rfl

theorem filter_crit_blockAuthorDate (auth : AuthorityFindings) :
    (blockAuthorDate auth).filter isCritSchemaRec = [] := by
  unfold blockAuthorDate
  split <;> rfl

theorem filter_crit_blockListsBonus (cq : ContentFindings) :
    (blockListsBonus cq).filter isCritSchemaRec = [] := by
  unfold blockListsBonus
  split <;> rfl

theorem filter_crit_blockUsageBonus (cq : ContentFindings) :
    (blockUsageBonus cq).filter isCritSchemaRec = [] := by
  unfold blockUsageBonus
  split <;> rfl

theorem filter_crit_blockOgBonus (md : MetadataFindings) :
    (blockOgBonus md).filter isCritSchemaRec = [] := by
  unfold blockOgBonus
  split <;> rfl

theorem sublist_if_block (c : Bool) (r : Recommendation) :
    List.Sublist (if c then [r] else []) [r] := by
  split
  · exact List.Sublist.refl _
  · exact List.nil_sublist _

theorem sublist_blockSchemaCrit (sa : SchemaAnalysis) :
    List.Sublist (blockSchemaCrit sa) [recNoSchema, recIncompleteSchema sa] := by
  unfold blockSchemaCrit
  split
  · exact List.Sublist.cons₂ _ (List.nil_sublist _)
  · split
    · exact List.Sublist.cons _ (List.Sublist.refl _)
    · exact List.nil_sublist _

/-- C4: the recommendation generator emits entries as a sub-list of the
fixed fourteen-rule table of §4.8 (so in its order), the priority tiers
appear in non-decreasing order (all CRITICAL before IMPORTANT before
RECOMMENDED before BONUS), and rules 1 and 2 — the only critical
structured-data recommendations — are mutually exclusive: at most one of
them is emitted for any findings input. -/
theorem recommendations_tier_order_and_exclusive (sa : SchemaAnalysis)
    (fF fWS : Bool) (cq : ContentFindings) (auth : AuthorityFindings)
    (md : MetadataFindings) (bc : Bool) :
    ((generateRecommendations sa fF fWS cq auth md bc).map tierOf).Pairwise (· ≤ ·)
  ∧ List.Sublist (generateRecommendations sa fF fWS cq auth md bc) (ruleTable sa cq)
  ∧ ((generateRecommendations sa fF fWS cq auth md bc).filter isCritSchemaRec).length ≤ 1 := by
  have hg1 : ∀ x ∈ blockSchemaCrit sa ++ blockContentCrit cq, tierOf x = 0 := by
    intro x hx
    rcases List.mem_append.mp hx with h | h
    · exact tierOf_blockSchemaCrit sa x h
    · exact tierOf_if_block h rfl
  have hg2 : ∀ x ∈ blockFaq fF fWS ++ blockSpecsTable cq ++ blockHierarchy cq
      ++ blockMetaDesc md, tierOf x = 1 := by
    intro x hx
    simp only [List.mem_append] at hx
    rcases hx with ((h | h) | h) | h
    · exact tierOf_if_block h rfl
    · exact tierOf_if_block h rfl
    · exact tierOf_if_block h rfl
    · exact tierOf_if_block h rfl
  have hg3 : ∀ x ∈ blockCert auth ++ blockComparison cq ++ blockBreadcrumb bc
      ++ blockAuthorDate auth, tierOf x = 2 := by
    intro x hx
    simp only [List.mem_append] at hx
    rcases hx with ((h | h) | h) | h
    · exact tierOf_if_block h rfl
    · exact tierOf_if_block h rfl
    · exact tierOf_if_block h rfl
    · exact tierOf_if_block h rfl
  have hg4 : ∀ x ∈ blockListsBonus cq ++ blockUsageBonus cq ++ blockOgBonus md,
      tierOf x = 3 := by
    intro x hx
    simp only [List.mem_append] at hx
    rcases hx with (h | h) | h
    · exact tierOf_if_block h rfl
    · exact tierOf_if_block h rfl
    · exact tierOf_if_block h rfl
  refine ⟨?_, ?_, ?_⟩
  · unfold generateRecommendations
    have p12 := pairwise_map_append _ _ 1 (pairwise_map_const hg1)
      (pairwise_map_const hg2)
      (fun x hx => by rw [hg1 x hx]; omega)
      (fun x hx => by rw [hg2 x hx])
    have p123 := pairwise_map_append _ _ 2 p12 (pairwise_map_const hg3)
      (fun x hx => by
        rcases List.mem_append.mp hx with h | h
        · rw [hg1 x h]; omega
        · rw [hg2 x h]; omega)
      (fun x hx => by rw [hg3 x hx])
    exact pairwise_map_append _ _ 3 p123 (pairwise_map_const hg4)
      (fun x hx => by
        rcases List.mem_append.mp hx with h | h
        · rcases List.mem_append.mp h with h2 | h2
          · rw [hg1 x h2]; omega
          · rw [hg2 x h2]; omega
        · rw [hg3 x h]; omega)
      (fun x hx => by rw [hg4 x hx])
  · unfold generateRecommendations ruleTable
    have s1 := (sublist_blockSchemaCrit sa).append
      (sublist_if_block (!cq.sufficient_content) (recContentLen cq.word_count))
    have s2 := (((sublist_if_block (!fF || !fWS) recFaq).append
        (sublist_if_block (!cq.has_tables && !cq.has_specs) recSpecsTable)).append
          (sublist_if_block (!cq.has_hierarchy) recHierarchy)).append
            (sublist_if_block (!md.has_meta_description) recMetaDesc)
    have s3 := (((sublist_if_block (!auth.has_certifications) recCert).append
        (sublist_if_block (!cq.has_comparison) recComparison)).append
          (sublist_if_block (!bc) recBreadcrumb)).append
            (sublist_if_block (!auth.has_author || !auth.has_publish_date) recAuthorDate)
    have s4 := ((sublist_if_block cq.has_lists recListsBonus).append
        (sublist_if_block (!cq.has_usage_guide) recUsageBonus)).append
          (sublist_if_block (!md.has_open_graph) recOgBonus)
    exact ((s1.append s2).append s3).append s4
  · simp only [generateRecommendations, List.filter_append,
      filter_crit_blockContentCrit, filter_crit_blockFaq, filter_crit_blockSpecsTable,
      filter_crit_blockHierarchy, filter_crit_blockMetaDesc, filter_crit_blockCert,
      filter_crit_blockComparison, filter_crit_blockBreadcrumb,
      filter_crit_blockAuthorDate, filter_crit_blockListsBonus,
      filter_crit_blockUsageBonus, filter_crit_blockOgBonus,
      List.append_nil, List.nil_append]
    unfold blockSchemaCrit
    split
    · exact Nat.le_refl 1
    · split
      · exact Nat.le_refl 1
      · exact Nat.zero_le 1

theorem keyLe_of_key_eq {a b : PageResult} (h : resultKey a = resultKey b) :
    keyLe a b := by
  have h1 : resultRank a = resultRank b := congrArg Prod.fst h
  have h2 : a.score = b.score := congrArg Prod.snd h
  unfold keyLe
  omega

theorem orderedInsert_filter_key (x : PageResult) (k : Nat × Nat) :
    ∀ l : List PageResult,
      (List.orderedInsert keyLe x l).filter (fun r => decide (resultKey r = k))
        = if resultKey x = k
          then x :: l.filter (fun r => decide (resultKey r = k))
          else l.filter (fun r => decide (resultKey r = k))
  | [] => by
    by_cases hx : resultKey x = k <;> simp [List.orderedInsert, hx]
  | y :: ys => by
    have ih := orderedInsert_filter_key x k ys
    rw [List.orderedInsert]
    split
    · by_cases hx : resultKey x = k <;> by_cases hy : resultKey y = k <;>
        simp [List.filter_cons, hx, hy]
    · case isFalse hxy =>
      rw [List.filter_cons, ih]
      by_cases hy : resultKey y = k
      · have hx : ¬ resultKey x = k := fun hx =>
          hxy (keyLe_of_key_eq (by rw [hx, hy]))
        simp [List.filter_cons, hx, hy]
      · by_cases hx : resultKey x = k <;> simp [List.filter_cons, hx, hy]

theorem sortResults_filter_key (k : Nat × Nat) :
    ∀ rs : List PageResult,
      (sortResults rs).filter (fun r => decide (resultKey r = k))
        = rs.filter (fun r => decide (resultKey r = k))
  | [] => rfl
  | x :: xs => by
    have ih := sortResults_filter_key k xs
    show (List.orderedInsert keyLe x (List.insertionSort keyLe xs)).filter _ = _
    rw [orderedInsert_filter_key]
    unfold sortResults at ih
    rw [ih]
    by_cases hx : resultKey x = k <;> simp [List.filter_cons, hx]

/-- C5: the site-level aggregation is a permutation of the page results
sorted by the key `(classification != product, totalScore)`
lexicographically ascending: pairwise, every product page precedes every
non-product page (so no non-product page ever precedes a product page)
and scores ascend within equal ranks; and the sort is stable — for every
key value, the pages carrying that exact key keep their original relative
order. -/
theorem site_sort_product_first_stable (rs : List PageResult) :
    (sortResults rs).Perm rs
  ∧ (sortResults rs).Pairwise keyLe
  ∧ (sortResults rs).Pairwise
      (fun a b => a.type ≠ "product" → b.type ≠ "product")
  ∧ ∀ k : Nat × Nat,
      (sortResults rs).filter (fun r => decide (resultKey r = k))
        = rs.filter (fun r => decide (resultKey r = k)) := by
  have hsorted : (sortResults rs).Pairwise keyLe :=
    List.sorted_insertionSort keyLe rs
  refine ⟨List.perm_insertionSort keyLe rs, hsorted, ?_,
    fun k => sortResults_filter_key k rs⟩
  refine hsorted.imp ?_
  intro a b hab hna hbp
  unfold keyLe resultRank at hab
  rw [if_neg hna, if_pos hbp] at hab
  omega

theorem auditUrl_url (u : String) (f : FetchOutcome) : (auditUrl u f).url = u := by
  cases f with
  | exn msg => rfl
  | ok st ct body =>
    by_cases h : containsTextHtml ct = true
    · cases hs : scorePage body with
      | none => simp [auditUrl, h, hs]
      | some d => simp [auditUrl, h, hs]
    · simp [auditUrl, h]

/-- C8: a non-HTML content type produces a PageResult with score 0,
classification `"error"` and the single explanatory string, a fetch
exception produces a PageResult with status 0, score 0, classification
`"error"` and the single truncated error string, and the audit loop
yields exactly one result per input URL in order — no page failure aborts
the run. -/
theorem page_failure_isolated (u : String) (st : Nat) (ct : String)
    (body : ParsedPage) (msg : String) (pages : List (String × FetchOutcome))
    (hct : containsTextHtml ct = false) :
    (auditUrl u (.ok st ct body)).score = 0
  ∧ (auditUrl u (.ok st ct body)).type = "error"
  ∧ (auditUrl u (.ok st ct body)).recommendations = [.note "⚠️ Page non HTML"]
  ∧ (auditUrl u (.exn msg)).score = 0
  ∧ (auditUrl u (.exn msg)).type = "error"
  ∧ (auditUrl u (.exn msg)).status = 0
  ∧ (auditUrl u (.exn msg)).recommendations
      = [.note ("❌ Erreur: " ++ takeChars 50 msg)]
  ∧ (runAuditResults pages).map (fun r => r.url) = pages.map (fun pr => pr.1)
  ∧ (runAudit pages).length = pages.length := by
  refine ⟨?_, ?_, ?_, rfl, rfl, rfl, rfl, ?_, ?_⟩
  · simp [auditUrl, hct]
  · simp [auditUrl, hct]
  · simp [auditUrl, hct]
  · induction pages with
    | nil => rfl
    | cons pr rest ih => simp [runAuditResults, auditUrl_url, ih]
  · unfold runAudit sortResults
    rw [(List.perm_insertionSort keyLe (runAuditResults pages)).length_eq]
    unfold runAuditResults
    rw [List.length_map]

/-- Witness for C8, at a PDF content type, a timeout exception and the
empty URL list. -/
theorem page_failure_isolated_witness :
    containsTextHtml "application/pdf" = false
  ∧ ((auditUrl "u" (.ok 200 "application/pdf" emptyPage)).score = 0
     ∧ (auditUrl "u" (.ok 200 "application/pdf" emptyPage)).type = "error"
     ∧ (auditUrl "u" (.ok 200 "application/pdf" emptyPage)).recommendations
         = [.note "⚠️ Page non HTML"]
     ∧ (auditUrl "u" (.exn "timeout")).score = 0
     ∧ (auditUrl "u" (.exn "timeout")).type = "error"
     ∧ (auditUrl "u" (.exn "timeout")).status = 0
     ∧ (auditUrl "u" (.exn "timeout")).recommendations
         = [.note ("❌ Erreur: " ++ takeChars 50 "timeout")]
     ∧ (runAuditResults []).map (fun r => r.url) = ([] : List (String × FetchOutcome)).map (fun pr => pr.1)
     ∧ (runAudit []).length = ([] : List (String × FetchOutcome)).length) :=
  ⟨rfl, page_failure_isolated "u" 200 "application/pdf" emptyPage "timeout" [] rfl⟩
